import Mathlib

/-!
Verification of the AI-trader frontend (React/TypeScript single-page app).

This file shallowly embeds the frontend's data model and the pure content of
its handlers into Lean 4 and proves the behavioural properties claimed by the
specification.  Money amounts are modelled as rationals, JS strings as `String`
(with the ASCII `trim`/`toUpperCase` semantics embedded explicitly, since the
source only ever applies them to stock symbols), and effectful handlers as
pure functions from their inputs (component state plus the outcomes of the
HTTP calls they await) to the list of HTTP requests they issue and the
resulting component state.
-/

namespace AITrader

/-- An HTTP request issued by the frontend: method and path (relative to the
axios base URL for the service layer, absolute for raw `fetch` calls). -/
structure Request where
  method : String
  path : String
deriving DecidableEq, Repr

/-! ### WebSocket message handling (`useTradingWebSocket.handleMessage`)

From `src/frontend/ai-trader/src/hooks/useWebSocket.ts`. -/

/-- `AIDecision` payload interface of `useWebSocket.ts`. -/
structure AIDecisionWS where
  decision_id : Nat
  symbol : String
  action : String
  confidence : ℚ
  quantity : ℚ
  suggested_price : ℚ
  reasoning : String
  timestamp : String
deriving DecidableEq, Repr

/-- `TradeExecution` payload interface of `useWebSocket.ts`. -/
structure TradeExecutionWS where
  trade_id : Nat
  symbol : String
  action : String
  quantity : ℚ
  price : ℚ
  timestamp : String
  status : String
deriving DecidableEq, Repr

/-- `EngineStatus` payload interface of `useWebSocket.ts`. -/
structure EngineStatusWS where
  is_running : Bool
  last_run : String
  next_run : String
  run_count : Nat
  errors : List String
deriving DecidableEq, Repr

/-- One holding inside a `PortfolioUpdate` websocket payload. -/
structure HoldingWS where
  symbol : String
  quantity : ℚ
  average_price : ℚ
  current_price : ℚ
  market_value : ℚ
  profit_loss : ℚ
  profit_loss_percent : ℚ
deriving DecidableEq, Repr

/-- `PortfolioUpdate` payload interface of `useWebSocket.ts`. -/
structure PortfolioUpdateWS where
  total_value : ℚ
  cash_balance : ℚ
  profit_loss : ℚ
  profit_loss_percent : ℚ
  holdings : List HoldingWS
deriving DecidableEq, Repr

/-- The `data` record of a `WebSocketMessage`.  In the source it is an untyped
`Record<string, unknown>` out of which `handleMessage` reads `type` and, in the
branch that matches, exactly one payload field; we model all payload slots as
present (only the one matching the topic is ever read). -/
structure WSData where
  type : String
  decision : AIDecisionWS
  trade : TradeExecutionWS
  status : EngineStatusWS
  portfolio : PortfolioUpdateWS
deriving DecidableEq, Repr

/-- `WebSocketMessage` interface of `useWebSocket.ts`. -/
structure WSMessage where
  topic : String
  timestamp : String
  data : WSData
deriving DecidableEq, Repr

/-- The state held by `useTradingWebSocket`. -/
structure TradingWSState where
  aiDecisions : List AIDecisionWS
  tradeExecutions : List TradeExecutionWS
  engineStatus : Option EngineStatusWS
  portfolioUpdates : Option PortfolioUpdateWS
deriving DecidableEq, Repr

/-- The initial `useTradingWebSocket` state (`useState([])` / `useState(null)`). -/
def initialTradingWSState : TradingWSState :=
  { aiDecisions := [], tradeExecutions := [], engineStatus := none,
    portfolioUpdates := none }

/-- `handleMessage` of `useTradingWebSocket` (useWebSocket.ts lines 249-275).
JS `prev.slice(0, 9)` is `List.take 9`. -/
def handleMessage (s : TradingWSState) (m : WSMessage) : TradingWSState :=
  if m.topic = "ai_decisions" then
    if m.data.type = "new_decision" then
      { s with aiDecisions := m.data.decision :: s.aiDecisions.take 9 }
    else s
  else if m.topic = "trades" then
    if m.data.type = "trade_executed" then
      { s with tradeExecutions := m.data.trade :: s.tradeExecutions.take 9 }
    else s
  else if m.topic = "engine_status" then
    if m.data.type = "status_change" then
      { s with engineStatus := some m.data.status }
    else s
  else if m.topic = "portfolio" then
    if m.data.type = "portfolio_updated" then
      { s with portfolioUpdates := some m.data.portfolio }
    else s
  else s

lemma handleMessage_aiDecisions_len_le (s : TradingWSState) (m : WSMessage)
    (h : s.aiDecisions.length ≤ 10) :
    (handleMessage s m).aiDecisions.length ≤ 10 := by
  unfold handleMessage
  repeat' split
  all_goals simp_all

lemma handleMessage_trades_len_le (s : TradingWSState) (m : WSMessage)
    (h : s.tradeExecutions.length ≤ 10) :
    (handleMessage s m).tradeExecutions.length ≤ 10 := by
  unfold handleMessage
  repeat' split
  all_goals simp_all

lemma foldl_handleMessage_len_le (msgs : List WSMessage) (s : TradingWSState)
    (h1 : s.aiDecisions.length ≤ 10) (h2 : s.tradeExecutions.length ≤ 10) :
    (msgs.foldl handleMessage s).aiDecisions.length ≤ 10 ∧
      (msgs.foldl handleMessage s).tradeExecutions.length ≤ 10 := by
  induction msgs generalizing s with
  | nil => exact ⟨h1, h2⟩
  | cons m rest ih =>
      exact ih (handleMessage s m)
        (handleMessage_aiDecisions_len_le s m h1)
        (handleMessage_trades_len_le s m h2)

/-- C8: starting from the initial `useTradingWebSocket` state, after any
sequence of incoming websocket messages the `aiDecisions` and
`tradeExecutions` lists each hold at most 10 entries; a `new_decision` message
on topic `ai_decisions` prepends its decision payload to the first 9 previous
entries (newest first) and leaves the trade list unchanged, a
`trade_executed` message on topic `trades` does the symmetric update, and a
message of any other topic, or of a non-matching type on these two topics,
leaves both lists unchanged. -/
theorem c8_recent_lists_bounded_newest_first (msgs : List WSMessage)
    (s : TradingWSState) (m : WSMessage) :
    ((msgs.foldl handleMessage initialTradingWSState).aiDecisions.length ≤ 10 ∧
      (msgs.foldl handleMessage initialTradingWSState).tradeExecutions.length ≤ 10) ∧
    (m.topic = "ai_decisions" → m.data.type = "new_decision" →
      (handleMessage s m).aiDecisions = m.data.decision :: s.aiDecisions.take 9 ∧
      (handleMessage s m).tradeExecutions = s.tradeExecutions) ∧
    (m.topic = "trades" → m.data.type = "trade_executed" →
      (handleMessage s m).tradeExecutions = m.data.trade :: s.tradeExecutions.take 9 ∧
      (handleMessage s m).aiDecisions = s.aiDecisions) ∧
    (m.topic ≠ "ai_decisions" → m.topic ≠ "trades" →
      (handleMessage s m).aiDecisions = s.aiDecisions ∧
      (handleMessage s m).tradeExecutions = s.tradeExecutions) ∧
    (m.topic = "ai_decisions" → m.data.type ≠ "new_decision" →
      handleMessage s m = s) ∧
    (m.topic = "trades" → m.data.type ≠ "trade_executed" →
      handleMessage s m = s) := by
  refine ⟨foldl_handleMessage_len_le msgs initialTradingWSState (by simp [initialTradingWSState]) (by simp [initialTradingWSState]), ?_, ?_, ?_, ?_, ?_⟩
  · intro ht hd
    simp [handleMessage, ht, hd]
  · intro ht hd
    simp [handleMessage, ht, hd]
  · intro ht1 ht2
    unfold handleMessage
    repeat' split
    all_goals simp_all
  · intro ht hd
    simp [handleMessage, ht, hd]
  · intro ht hd
    simp [handleMessage, ht, hd]

/-- A concrete decision payload used by witnesses. -/
def sampleDecisionWS : AIDecisionWS :=
  { decision_id := 1, symbol := "AAPL", action := "buy", confidence := 9/10,
    quantity := 5, suggested_price := 100, reasoning := "momentum",
    timestamp := "t0" }

/-- A concrete trade payload used by witnesses. -/
def sampleTradeWS : TradeExecutionWS :=
  { trade_id := 2, symbol := "MSFT", action := "sell", quantity := 3,
    price := 50, timestamp := "t1", status := "completed" }

/-- A concrete engine-status payload used by witnesses. -/
def sampleStatusWS : EngineStatusWS :=
  { is_running := true, last_run := "t2", next_run := "t3", run_count := 4,
    errors := [] }

/-- A concrete portfolio payload used by witnesses. -/
def samplePortfolioWS : PortfolioUpdateWS :=
  { total_value := 1000, cash_balance := 400, profit_loss := 10,
    profit_loss_percent := 1, holdings := [] }

/-- A concrete `new_decision` message on topic `ai_decisions`. -/
def sampleDecisionMsg : WSMessage :=
  { topic := "ai_decisions", timestamp := "t0",
    data := { type := "new_decision", decision := sampleDecisionWS,
              trade := sampleTradeWS, status := sampleStatusWS,
              portfolio := samplePortfolioWS } }

/-- Witness for C8 at a concrete message: a `new_decision` message prepends
its payload and leaves trades unchanged. -/
theorem c8_witness :
    (handleMessage initialTradingWSState sampleDecisionMsg).aiDecisions =
        sampleDecisionMsg.data.decision ::
          initialTradingWSState.aiDecisions.take 9 ∧
      (handleMessage initialTradingWSState sampleDecisionMsg).tradeExecutions =
        initialTradingWSState.tradeExecutions :=
  (c8_recent_lists_bounded_newest_first [] initialTradingWSState
    sampleDecisionMsg).2.1 rfl rfl

/-! ### WebSocket reconnect logic (`useWebSocket`)

From `src/frontend/ai-trader/src/hooks/useWebSocket.ts`: the `onclose`
handler (lines 145-162) and the hook's state. -/

/-- The `connectionState` union type of `useWebSocket`. -/
inductive ConnState where
  | connecting
  | connected
  | disconnected
  | error
deriving DecidableEq, Repr

/-- The state of the `useWebSocket` hook relevant to reconnection. -/
structure WSHookState where
  isConnected : Bool
  connectionState : ConnState
  reconnectCount : Nat
deriving DecidableEq, Repr

/-- Default `reconnectInterval` option of `useWebSocket` (milliseconds). -/
def defaultReconnectIntervalMs : Nat := 10000

/-- Default `maxReconnectAttempts` option of `useWebSocket`. -/
def defaultMaxReconnectAttempts : Nat := 3

/-- Initial hook state: `isConnected = false`, `connectionState =
'disconnected'`, `reconnectCount = 0`. -/
def initialWSHookState : WSHookState :=
  { isConnected := false, connectionState := .disconnected, reconnectCount := 0 }

/-- The `onopen` handler: connected, `reconnectCount` reset to 0. -/
def onOpen (s : WSHookState) : WSHookState :=
  { s with
    isConnected := true, connectionState := .connected, reconnectCount := 0 }

/-- The `onclose` handler for a close event with code `code`, returning the
new hook state together with the delay (ms) of the reconnect it schedules via
`setTimeout`, when it schedules one.  Mirrors useWebSocket.ts lines 145-162:
first `setIsConnected(false)` and `setConnectionState('disconnected')`, then
a reconnect is scheduled after `reconnectInterval` only when the code is not
1000 (manual close) and `reconnectCount < maxReconnectAttempts`; otherwise,
when `reconnectCount ≥ maxReconnectAttempts`, `connectionState` is set to
`'error'`. -/
def onClose (maxAttempts intervalMs : Nat) (s : WSHookState) (code : Nat) :
    WSHookState × Option Nat :=
  let s1 : WSHookState :=
    { s with isConnected := false, connectionState := .disconnected }
  if code ≠ 1000 ∧ s.reconnectCount < maxAttempts then
    ({ s1 with reconnectCount := s.reconnectCount + 1 }, some intervalMs)
  else if s.reconnectCount ≥ maxAttempts then
    ({ s1 with connectionState := .error }, none)
  else
    (s1, none)

/-- Runs a sequence of close events through `onClose`, collecting the delays
of all scheduled reconnect attempts. -/
def runCloses (maxAttempts intervalMs : Nat) (s : WSHookState) :
    List Nat → WSHookState × List Nat
  | [] => (s, [])
  | code :: rest =>
      let (s2, sched) := onClose maxAttempts intervalMs s code
      let (sFin, delays) := runCloses maxAttempts intervalMs s2 rest
      (sFin, (sched.toList) ++ delays)

/-- The connection indicator rendered by `EnhancedTradingControl.tsx`
(lines 342-349): `wsConnected ? 'Live' : 'Offline'`. -/
def connectionIndicator (wsConnected : Bool) : String :=
  if wsConnected then "Live" else "Offline"

lemma runCloses_cons (m i : Nat) (s : WSHookState) (c : Nat)
    (rest : List Nat) :
    runCloses m i s (c :: rest) =
      ((runCloses m i (onClose m i s c).1 rest).1,
        (onClose m i s c).2.toList ++
          (runCloses m i (onClose m i s c).1 rest).2) := rfl

lemma onClose_cases (m i : Nat) (s : WSHookState) (c : Nat) :
    ((onClose m i s c).2 = some i ∧
        (onClose m i s c).1.reconnectCount = s.reconnectCount + 1 ∧
        s.reconnectCount < m ∧ c ≠ 1000) ∨
      ((onClose m i s c).2 = none ∧
        (onClose m i s c).1.reconnectCount = s.reconnectCount) := by
  simp only [onClose]
  split
  · next h => exact Or.inl ⟨rfl, rfl, h.2, h.1⟩
  · split
    · exact Or.inr ⟨rfl, rfl⟩
    · exact Or.inr ⟨rfl, rfl⟩

lemma runCloses_delays_le (m i : Nat) (s : WSHookState) (codes : List Nat) :
    (runCloses m i s codes).2.length ≤ m - s.reconnectCount := by
  induction codes generalizing s with
  | nil => simp [runCloses]
  | cons c rest ih =>
      rw [runCloses_cons]
      rcases onClose_cases m i s c with ⟨h2, hc, hlt, _⟩ | ⟨h2, hc⟩
      · have hr := ih (onClose m i s c).1
        rw [hc] at hr
        simp only [h2, Option.toList_some, List.length_append,
          List.length_cons, List.length_nil]
        omega
      · have hr := ih (onClose m i s c).1
        rw [hc] at hr
        simp only [h2, Option.toList_none, List.nil_append]
        exact hr

lemma runCloses_delays_interval (m i : Nat) (s : WSHookState)
    (codes : List Nat) :
    ∀ d ∈ (runCloses m i s codes).2, d = i := by
  induction codes generalizing s with
  | nil => simp [runCloses]
  | cons c rest ih =>
      rw [runCloses_cons]
      intro d hd
      rcases List.mem_append.mp hd with h | h
      · rcases onClose_cases m i s c with ⟨h2, _, _, _⟩ | ⟨h2, _⟩
        · rw [h2] at h
          simpa using h
        · rw [h2] at h
          simp at h
      · exact ih _ d h

/-- C3: for every sequence of websocket close events fed to the `onclose`
handler from the initial hook state, at most `maxReconnectAttempts` reconnect
attempts are scheduled, each after a delay of `reconnectInterval` ms (the
defaults are 3 attempts and 10000 ms); a close with code 1000 never schedules
a retry; once `reconnectCount` has reached the cap a further close schedules
no retry and sets `connectionState` to `error`; and after any close the hook
reports disconnected, so the dashboard indicator reads `Offline`. -/
theorem c3_bounded_reconnect_with_cap (m i : Nat) (codes : List Nat)
    (s : WSHookState) (c : Nat) :
    ((runCloses m i initialWSHookState codes).2.length ≤ m ∧
      ∀ d ∈ (runCloses m i initialWSHookState codes).2, d = i) ∧
    defaultMaxReconnectAttempts = 3 ∧
    defaultReconnectIntervalMs = 10000 ∧
    (onClose m i s 1000).2 = none ∧
    (m ≤ s.reconnectCount →
      (onClose m i s c).2 = none ∧
      (onClose m i s c).1.connectionState = .error) ∧
    (onClose m i s c).1.isConnected = false ∧
    connectionIndicator (onClose m i s c).1.isConnected = "Offline" := by
  refine ⟨⟨?_, runCloses_delays_interval m i initialWSHookState codes⟩,
    rfl, rfl, ?_, ?_, ?_, ?_⟩
  · have h := runCloses_delays_le m i initialWSHookState codes
    simpa [initialWSHookState] using h
  · simp only [onClose]
    repeat' split
    all_goals simp_all
  · intro hcap
    simp only [onClose]
    repeat' split
    all_goals first | exact ⟨rfl, rfl⟩ | omega
  · simp only [onClose]
    repeat' split
    all_goals rfl
  · simp only [onClose, connectionIndicator]
    repeat' split
    all_goals simp_all

/-- A hook state whose reconnect count has reached the default cap. -/
def cappedWSHookState : WSHookState :=
  { isConnected := false, connectionState := .disconnected,
    reconnectCount := 3 }

/-- Witness for C3 at the default options: at the cap, a further abnormal
close (code 1006) schedules no retry and moves the hook to the `error`
state. -/
theorem c3_witness :
    (onClose 3 10000 cappedWSHookState 1006).2 = none ∧
      (onClose 3 10000 cappedWSHookState 1006).1.connectionState = .error :=
  (c3_bounded_reconnect_with_cap 3 10000 [1006] cappedWSHookState 1006).2.2.2.2.1
    (by decide)

/-! ### Axios response interceptor (`src/unnamed/part_003`, api.ts lines 106-127)

The interceptor turns every failed REST call into a thrown `Error` whose
message depends on the failure shape. -/

/-- The shape of an `AxiosError` as far as the interceptor reads it:
`error.code`, `error.response?.status`, the optional `detail` field of
`error.response?.data` (present only when a response body is an object with a
`detail` key), and `error.message`. -/
structure AxiosFailure where
  code : Option String
  status : Option Nat
  detail : Option String
  message : String
deriving DecidableEq, Repr

/-- The message of the `Error` thrown by the response interceptor
(api.ts lines 106-127).  The guards are checked in source order; the final
branch models JS `error.message || 'An unexpected error occurred'`, whose
fallback fires exactly when `message` is the empty string. -/
def interceptorMessage (e : AxiosFailure) : String :=
  if e.code = some "ECONNABORTED" then
    "Request timeout - please try again"
  else if e.status = some 404 then
    "Market data not available for this symbol"
  else if e.status = some 429 then
    "Rate limit exceeded - please wait before trying again"
  else
    match e.detail with
    | some d => d
    | none => if e.message = "" then "An unexpected error occurred" else e.message

/-- The error banner rendered by `TradingDashboard` (part_005 lines 186-190):
when the `error` state is set, an `Alert` with `variant="destructive"`
containing the message is shown; otherwise no banner. -/
def dashboardErrorBanner (error : Option String) : Option (String × String) :=
  error.map (fun msg => ("destructive", msg))

/-- C4 counterexample: the claim says a failure matching none of the special
cases yields "the original error message", but for a failure with an empty
message (no code, no response) the interceptor throws
`'An unexpected error occurred'`, not the original (empty) message. -/
theorem c4_counterexample :
    interceptorMessage
        { code := none, status := none, detail := none, message := "" } ≠
      { code := none, status := none, detail := none,
        message := "" : AxiosFailure }.message := by
  decide

/-- C4 (amended): the interceptor maps `ECONNABORTED` to the timeout message,
then HTTP 404 to the market-data message, then HTTP 429 to the rate-limit
message, then a response body with a `detail` field to that detail string, and
anything else to the original error message, except that an empty original
message becomes `'An unexpected error occurred'`; the dashboard renders any
resulting message in a destructive alert banner. -/
theorem c4_interceptor_maps_failures (e : AxiosFailure) (msg : String) :
    (e.code = some "ECONNABORTED" →
      interceptorMessage e = "Request timeout - please try again") ∧
    (e.code ≠ some "ECONNABORTED" → e.status = some 404 →
      interceptorMessage e = "Market data not available for this symbol") ∧
    (e.code ≠ some "ECONNABORTED" → e.status ≠ some 404 → e.status = some 429 →
      interceptorMessage e = "Rate limit exceeded - please wait before trying again") ∧
    (e.code ≠ some "ECONNABORTED" → e.status ≠ some 404 → e.status ≠ some 429 →
      ∀ d, e.detail = some d → interceptorMessage e = d) ∧
    (e.code ≠ some "ECONNABORTED" → e.status ≠ some 404 → e.status ≠ some 429 →
      e.detail = none → e.message ≠ "" → interceptorMessage e = e.message) ∧
    (e.code ≠ some "ECONNABORTED" → e.status ≠ some 404 → e.status ≠ some 429 →
      e.detail = none → e.message = "" →
      interceptorMessage e = "An unexpected error occurred") ∧
    dashboardErrorBanner (some msg) = some ("destructive", msg) ∧
    dashboardErrorBanner none = none := by
  refine ⟨?_, ?_, ?_, ?_, ?_, ?_, rfl, rfl⟩
  · intro h
    simp [interceptorMessage, h]
  · intro h1 h2
    simp [interceptorMessage, h1, h2]
  · intro h1 h2 h3
    simp [interceptorMessage, h1, h2, h3]
  · intro h1 h2 h3 d hd
    simp [interceptorMessage, h1, h2, h3, hd]
  · intro h1 h2 h3 hd hm
    simp [interceptorMessage, h1, h2, h3, hd, hm]
  · intro h1 h2 h3 hd hm
    simp [interceptorMessage, h1, h2, h3, hd, hm]

/-- A concrete 404 failure used by the C4 witness. -/
def sample404Failure : AxiosFailure :=
  { code := none, status := some 404, detail := none, message := "err" }

/-- Witness for C4 at a concrete failure: an HTTP 404 response yields the
market-data message. -/
theorem c4_witness :
    interceptorMessage sample404Failure =
      "Market data not available for this symbol" :=
  (c4_interceptor_maps_failures sample404Failure "x").2.1 (by decide) rfl

/-! ### Dashboard trade execution (`TradingDashboard`, part_005 lines 87-95 and 141-162)

`executeTrade` returns immediately for hold decisions, otherwise POSTs the
order, refreshes the portfolio from `GET /portfolio/` and clears the error
banner on success, or sets an error and leaves the portfolio untouched on
failure. -/

/-- `TradeDecision.action` union type of api.ts. -/
inductive TradeAction where
  | buy
  | sell
  | hold
deriving DecidableEq, Repr

/-- The JS string of a `TradeAction`. -/
def TradeAction.toJS : TradeAction → String
  | .buy => "buy"
  | .sell => "sell"
  | .hold => "hold"

/-- `TradeOrder.action` union type of api.ts: only `'buy' | 'sell'`. -/
inductive OrderAction where
  | buy
  | sell
deriving DecidableEq, Repr

/-- Narrowing of a decision action to an order action: `hold` is excluded by
the `TradeOrder` type, which is what the early return in `executeTrade`
relies on. -/
def TradeAction.toOrderAction : TradeAction → Option OrderAction
  | .buy => some .buy
  | .sell => some .sell
  | .hold => none

/-- `TradeDecision` interface of api.ts. -/
structure TradeDecision where
  symbol : String
  action : TradeAction
  quantity : ℚ
  confidence : ℚ
  reasoning : String
  suggested_price : ℚ
  decision_id : Option Nat
deriving DecidableEq, Repr

/-- `TradeOrder` interface of api.ts. -/
structure TradeOrder where
  symbol : String
  action : OrderAction
  quantity : ℚ
  price : Option ℚ
  decision_id : Option Nat
deriving DecidableEq, Repr

/-- One holding of the `Portfolio` interface of api.ts. -/
structure Holding where
  symbol : String
  quantity : ℚ
  avg_price : ℚ
  current_price : ℚ
  value : ℚ
  profit_loss : ℚ
deriving DecidableEq, Repr

/-- `Portfolio` interface of api.ts. -/
structure Portfolio where
  cash_balance : ℚ
  total_value : ℚ
  holdings : List Holding
  profit_loss : ℚ
  profit_loss_percent : ℚ
deriving DecidableEq, Repr

/-- The `TradingDashboard` state touched by `executeTrade`. -/
structure DashState where
  portfolio : Option Portfolio
  error : Option String
deriving DecidableEq, Repr

/-- The request issued by `tradingApi.executeTrade` (api.ts: POST
`/trading/execute` with the order as body). -/
def executeTradeRequest (_order : TradeOrder) : Request :=
  { method := "POST", path := "/trading/execute" }

/-- `refreshPortfolio` (part_005 lines 87-95): GET `/portfolio/`; on success
the fetched portfolio replaces the state, on failure an error is set. -/
def refreshPortfolio (s : DashState) (fetched : Option Portfolio) :
    List Request × DashState :=
  ([{ method := "GET", path := "/portfolio/" }],
    match fetched with
    | some p => { s with portfolio := some p }
    | none => { s with error := some "Failed to refresh portfolio" })

/-- `executeTrade` of `TradingDashboard` (part_005 lines 141-162), as a
function of the decision, the outcome of the POST (`execOk`) and the outcome
of the portfolio refetch (`fetched`).  For a hold decision it returns before
doing anything; otherwise on success it awaits `refreshPortfolio` and then
clears the error state, and on failure it sets an error message. -/
def executeTrade (s : DashState) (d : TradeDecision) (execOk : Bool)
    (fetched : Option Portfolio) : List Request × DashState :=
  match d.action.toOrderAction with
  | none => ([], s)
  | some a =>
      let order : TradeOrder :=
        { symbol := d.symbol, action := a, quantity := d.quantity,
          price := some d.suggested_price, decision_id := d.decision_id }
      if execOk then
        let (reqs, s1) := refreshPortfolio s fetched
        (executeTradeRequest order :: reqs, { s1 with error := none })
      else
        ([executeTradeRequest order],
          { s with error := some ("Failed to execute " ++ d.action.toJS ++
              " order for " ++ d.symbol) })

/-- C5: for every non-hold decision, when the POST to `/trading/execute`
succeeds the handler refetches `GET /portfolio/`, replaces the displayed
portfolio with the fetched post-trade state and clears the error banner;
when the POST fails the portfolio is left unchanged and an error message is
set. -/
theorem c5_trade_execution_updates_portfolio (s : DashState)
    (d : TradeDecision) (p : Portfolio) (fetched : Option Portfolio) :
    (d.action ≠ .hold →
      (executeTrade s d true (some p)).2.portfolio = some p ∧
      (executeTrade s d true (some p)).2.error = none ∧
      (executeTrade s d true (some p)).1 =
        [{ method := "POST", path := "/trading/execute" },
          { method := "GET", path := "/portfolio/" }]) ∧
    (d.action ≠ .hold →
      (executeTrade s d false fetched).2.portfolio = s.portfolio ∧
      (executeTrade s d false fetched).2.error =
        some ("Failed to execute " ++ d.action.toJS ++ " order for " ++
          d.symbol)) := by
  constructor
  · intro h
    cases ha : d.action
    · simp [executeTrade, TradeAction.toOrderAction, ha, refreshPortfolio,
        executeTradeRequest]
    · simp [executeTrade, TradeAction.toOrderAction, ha, refreshPortfolio,
        executeTradeRequest]
    · exact absurd ha h
  · intro h
    cases ha : d.action
    · simp [executeTrade, TradeAction.toOrderAction, ha, executeTradeRequest]
    · simp [executeTrade, TradeAction.toOrderAction, ha, executeTradeRequest]
    · exact absurd ha h

/-- A concrete buy decision used by witnesses. -/
def sampleBuyDecision : TradeDecision :=
  { symbol := "AAPL", action := .buy, quantity := 2, confidence := 4/5,
    reasoning := "earnings", suggested_price := 150, decision_id := some 7 }

/-- A concrete holding used by witnesses. -/
def sampleHolding : Holding :=
  { symbol := "AAPL", quantity := 2, avg_price := 140, current_price := 150,
    value := 300, profit_loss := 20 }

/-- A concrete portfolio used by witnesses. -/
def samplePortfolio : Portfolio :=
  { cash_balance := 700, total_value := 1000, holdings := [sampleHolding],
    profit_loss := 0, profit_loss_percent := 0 }

/-- Witness for C5: a successful buy execution replaces the portfolio with
the refetched one and clears the error. -/
theorem c5_witness :
    (executeTrade { portfolio := none, error := some "old" }
        sampleBuyDecision true (some samplePortfolio)).2.portfolio =
        some samplePortfolio ∧
      (executeTrade { portfolio := none, error := some "old" }
        sampleBuyDecision true (some samplePortfolio)).2.error = none ∧
      (executeTrade { portfolio := none, error := some "old" }
        sampleBuyDecision true (some samplePortfolio)).1 =
        [{ method := "POST", path := "/trading/execute" },
          { method := "GET", path := "/portfolio/" }] :=
  (c5_trade_execution_updates_portfolio
    { portfolio := none, error := some "old" } sampleBuyDecision
    samplePortfolio none).1 (by decide)

/-- C9: the dashboard `executeTrade` handler is a no-op for hold decisions:
it issues no HTTP request and leaves portfolio and error state untouched;
conversely, if the POST to `/trading/execute` was issued then the decision's
action narrows to an order action (`buy` or `sell`, the only actions the
`TradeOrder` type admits). -/
theorem c9_hold_decisions_are_noops (s : DashState) (d : TradeDecision)
    (execOk : Bool) (fetched : Option Portfolio) :
    (d.action = .hold → executeTrade s d execOk fetched = ([], s)) ∧
    (({ method := "POST", path := "/trading/execute" } : Request) ∈
        (executeTrade s d execOk fetched).1 →
      d.action.toOrderAction.isSome) := by
  constructor
  · intro h
    simp [executeTrade, h, TradeAction.toOrderAction]
  · intro hmem
    cases ha : d.action
    · simp [ha, TradeAction.toOrderAction]
    · simp [ha, TradeAction.toOrderAction]
    · simp [executeTrade, ha, TradeAction.toOrderAction] at hmem

/-- A concrete hold decision used by the C9 witness. -/
def sampleHoldDecision : TradeDecision :=
  { symbol := "TSLA", action := .hold, quantity := 0, confidence := 1/2,
    reasoning := "wait", suggested_price := 200, decision_id := none }

/-- Witness for C9: a hold decision issues no request and changes nothing. -/
theorem c9_witness :
    executeTrade { portfolio := none, error := none } sampleHoldDecision
        true none =
      ([], { portfolio := none, error := none }) :=
  (c9_hold_decisions_are_noops { portfolio := none, error := none }
    sampleHoldDecision true none).1 rfl

/-! ### Trade validation gating (`StockAnalysis.tsx`) and symbol management
(`SymbolManager.tsx`) -/

/-- `TradeValidationResponse` interface of api.ts (part_003 lines 179-190). -/
structure TradeValidationResponse where
  valid : Bool
  error : Option String
  available_cash : Option ℚ
  required_cash : Option ℚ
  max_affordable_shares : Option ℚ
  available_shares : Option ℚ
  requested_shares : Option ℚ
  estimated_cost : Option ℚ
  execution_price : Option ℚ
  current_price : Option ℚ
deriving DecidableEq, Repr

/-- JS `validation?.valid` coerced to a boolean (`undefined` is falsy). -/
def optionalValid : Option TradeValidationResponse → Bool
  | some v => v.valid
  | none => false

/-- `handleExecuteTrade` of `StockAnalysis.tsx` (lines 58-68): returns the
decision passed to `onExecuteTrade` (with the custom quantity and current
price substituted), or nothing when there is no successful validation
(`if (!validation?.valid) return`). -/
def handleExecuteTrade (validation : Option TradeValidationResponse)
    (decision : TradeDecision) (customQuantity : ℚ) (currentPrice : ℚ) :
    Option TradeDecision :=
  if !(optionalValid validation) then none
  else
    some { decision with
           quantity := customQuantity, suggested_price := currentPrice }

/-- The `disabled` expression of the execute button in `StockAnalysis.tsx`
(lines 292-297): `validationLoading || !validation?.valid`. -/
def executeButtonDisabled (validationLoading : Bool)
    (validation : Option TradeValidationResponse) : Bool :=
  validationLoading || !(optionalValid validation)

/-- ASCII uppercase of one character, as JS `toUpperCase` acts on the ASCII
range (the only characters stock symbols contain). -/
def jsUpperChar (c : Char) : Char :=
  if 97 ≤ c.toNat ∧ c.toNat ≤ 122 then Char.ofNat (c.toNat - 32) else c

/-- JS `String.prototype.toUpperCase` on ASCII strings. -/
def jsToUpperCase (s : String) : String := ⟨s.data.map jsUpperChar⟩

/-- JS `String.prototype.trim`: strip leading and trailing whitespace. -/
def jsTrim (s : String) : String :=
  ⟨((s.data.dropWhile Char.isWhitespace).reverse.dropWhile
      Char.isWhitespace).reverse⟩

/-- JS `x || fallback` on an optional string (`undefined` and `''` are
falsy). -/
def jsStringOr (x : Option String) (fallback : String) : String :=
  match x with
  | some v => if v = "" then fallback else v
  | none => fallback

/-- The `SymbolManager` component state touched by `addSymbol`. -/
structure SymbolManagerState where
  symbols : List String
  newSymbol : String
  error : Option String
  success : Option String
  loading : Bool
deriving DecidableEq, Repr

/-- `SymbolData` interface of `SymbolManager.tsx`. -/
structure SymbolData where
  symbols : List String
  count : Nat
deriving DecidableEq, Repr

/-- Outcome of the POST to `/api/automated-trading/symbols/add`: an ok
response carrying the new symbol list, a non-ok response whose JSON may have
a `detail` field, or a thrown network error. -/
inductive AddSymbolServerResult where
  | ok (data : SymbolData)
  | httpError (detail : Option String)
  | networkError
deriving DecidableEq, Repr

/-- `addSymbol` of `SymbolManager.tsx` (lines 71-117), as a function of the
component state, the outcome of `validateSymbol` (which GETs
`/trading/stocks/{symbol}` via `tradingApi.getStock` and reports whether it
succeeded) and the outcome of the add POST.  Returns the issued requests and
the new state.  The `encodeURIComponent` wrapper is dropped from the POST
path: it is the identity on the uppercase alphanumeric symbols involved. -/
def addSymbol (s : SymbolManagerState) (validateOk : Bool)
    (server : AddSymbolServerResult) : List Request × SymbolManagerState :=
  if jsTrim s.newSymbol = "" then ([], s)
  else
    let symbolToAdd := jsToUpperCase (jsTrim s.newSymbol)
    if s.symbols.contains symbolToAdd then
      ([], { s with
             error := some ("Symbol " ++ symbolToAdd ++
               " is already in the list") })
    else
      let s1 : SymbolManagerState :=
        { s with loading := true, error := none, success := none }
      let validateReq : Request :=
        { method := "GET", path := "/trading/stocks/" ++
            jsToUpperCase symbolToAdd }
      if !validateOk then
        ([validateReq],
          { s1 with
            error := some ("Invalid symbol: " ++ symbolToAdd ++
              ". Please check the symbol and try again."),
            loading := false })
      else
        let addReq : Request :=
          { method := "POST",
            path := "/api/automated-trading/symbols/add?symbol=" ++
              symbolToAdd }
        match server with
        | .ok data =>
            ([validateReq, addReq],
              { s1 with
                symbols := data.symbols, newSymbol := "",
                success := some ("Symbol " ++ symbolToAdd ++
                  " added successfully"),
                loading := false })
        | .httpError detail =>
            ([validateReq, addReq],
              { s1 with
                error := some (jsStringOr detail "Failed to add symbol"),
                loading := false })
        | .networkError =>
            ([validateReq, addReq],
              { s1 with
                error := some "Error adding symbol", loading := false })

lemma addSymbol_unvalidated_no_post (s : SymbolManagerState)
    (server : AddSymbolServerResult) :
    (addSymbol s false server).1.any (fun r => r.method == "POST") = false := by
  unfold addSymbol
  by_cases h1 : jsTrim s.newSymbol = ""
  · simp [h1]
  · by_cases h2 : jsToUpperCase (jsTrim s.newSymbol) ∈ s.symbols
    · simp [h1, h2]
    · simp [h1, h2]

/-- C1: trades are validated before execution.  `handleExecuteTrade` hands a
decision to `onExecuteTrade` (which POSTs `/trading/execute`) only when the
current `validateTrade` response exists and has `valid = true`; the execute
button is enabled only when validation is neither pending nor failed; and
`SymbolManager.addSymbol` issues its POST only after `validateSymbol`
(via `tradingApi.getStock`) succeeded. -/
theorem c1_validation_gates_execution
    (validation : Option TradeValidationResponse) (d : TradeDecision)
    (q price : ℚ) (loading : Bool) (s : SymbolManagerState)
    (validateOk : Bool) (server : AddSymbolServerResult) :
    ((handleExecuteTrade validation d q price).isSome →
      ∃ v, validation = some v ∧ v.valid = true) ∧
    (executeButtonDisabled loading validation = false →
      loading = false ∧ ∃ v, validation = some v ∧ v.valid = true) ∧
    ((addSymbol s validateOk server).1.any
        (fun r => r.method == "POST") = true →
      validateOk = true) := by
  refine ⟨?_, ?_, ?_⟩
  · intro h
    cases validation with
    | none => simp [handleExecuteTrade, optionalValid] at h
    | some v =>
        cases hv : v.valid with
        | false => simp [handleExecuteTrade, optionalValid, hv] at h
        | true => exact ⟨v, rfl, hv⟩
  · intro h
    cases validation with
    | none => simp [executeButtonDisabled, optionalValid] at h
    | some v =>
        cases hv : v.valid with
        | false => simp [executeButtonDisabled, optionalValid, hv] at h
        | true =>
            simp only [executeButtonDisabled, optionalValid, hv,
              Bool.not_true, Bool.or_false] at h
            exact ⟨h, v, rfl, hv⟩
  · cases validateOk with
    | true => intro _; rfl
    | false =>
        intro hpost
        rw [addSymbol_unvalidated_no_post s server] at hpost
        exact absurd hpost (by decide)

/-- A concrete successful validation response used by the C1 witness. -/
def sampleValidation : TradeValidationResponse :=
  { valid := true, error := none, available_cash := some 1000,
    required_cash := some 300, max_affordable_shares := none,
    available_shares := none, requested_shares := none,
    estimated_cost := some 300, execution_price := none,
    current_price := some 150 }

/-- A concrete symbol-manager state used by witnesses. -/
def sampleSymbolState : SymbolManagerState :=
  { symbols := ["AAPL"], newSymbol := "MSFT", error := none,
    success := none, loading := false }

/-- Witness for C1: when the handler fires at a concrete valid validation,
that validation indeed exists and has `valid = true`. -/
theorem c1_witness :
    ∃ v, (some sampleValidation : Option TradeValidationResponse) = some v ∧
      v.valid = true :=
  (c1_validation_gates_execution (some sampleValidation) sampleBuyDecision
    2 150 false sampleSymbolState true .networkError).1 rfl

/-- C10: `SymbolManager.addSymbol` never creates a duplicate entry: an input
whose trim is empty is a complete no-op, and when the trimmed, uppercased
symbol is already in the list the function sets the duplicate error message
and returns without issuing any network request, with the symbols list
unchanged. -/
theorem c10_addSymbol_no_duplicates (s : SymbolManagerState)
    (validateOk : Bool) (server : AddSymbolServerResult) :
    (jsTrim s.newSymbol = "" → addSymbol s validateOk server = ([], s)) ∧
    (jsTrim s.newSymbol ≠ "" →
      jsToUpperCase (jsTrim s.newSymbol) ∈ s.symbols →
      (addSymbol s validateOk server).1 = [] ∧
      (addSymbol s validateOk server).2.symbols = s.symbols ∧
      (addSymbol s validateOk server).2.error =
        some ("Symbol " ++ jsToUpperCase (jsTrim s.newSymbol) ++
          " is already in the list")) := by
  constructor
  · intro h
    simp [addSymbol, h]
  · intro h1 h2
    simp [addSymbol, h1, h2]

/-- A symbol-manager state whose input is a lowercase, padded duplicate of a
listed symbol. -/
def dupSymbolState : SymbolManagerState :=
  { symbols := ["AAPL", "MSFT"], newSymbol := " aapl ", error := none,
    success := none, loading := false }

/-- Witness for C10: entering `" aapl "` when `AAPL` is listed issues no
request, keeps the list, and sets the duplicate error. -/
theorem c10_witness :
    (addSymbol dupSymbolState true .networkError).1 = [] ∧
      (addSymbol dupSymbolState true .networkError).2.symbols =
        dupSymbolState.symbols ∧
      (addSymbol dupSymbolState true .networkError).2.error =
        some ("Symbol " ++ jsToUpperCase (jsTrim dupSymbolState.newSymbol) ++
          " is already in the list") :=
  (c10_addSymbol_no_duplicates dupSymbolState true .networkError).2
    (by decide) (by decide)

/-! ### Portfolio allocation (`PortfolioOverview`, part_009 lines 96-147) -/

/-- Modelled from the spec: the backend that builds `Portfolio` records is
not under src/ (only the frontend consumes them); per the spec, "portfolio
value equals cash plus holdings valued at current price". -/
def Portfolio.wellFormed (p : Portfolio) : Prop :=
  (∀ h ∈ p.holdings, h.value = h.quantity * h.current_price) ∧
  p.total_value = p.cash_balance + (p.holdings.map Holding.value).sum

/-- The allocation percentage of one holding computed by `PortfolioOverview`
(part_009 line 104): `(holding.value / portfolio.total_value) * 100`. -/
def holdingAllocationPercent (p : Portfolio) (h : Holding) : ℚ :=
  h.value / p.total_value * 100

/-- The cash allocation percentage (part_009 lines 132-138):
`(portfolio.cash_balance / portfolio.total_value) * 100`. -/
def cashAllocationPercent (p : Portfolio) : ℚ :=
  p.cash_balance / p.total_value * 100

/-- All allocation percentages rendered by the Portfolio Allocation card:
one per holding plus the cash row, the latter rendered only when
`cash_balance > 0` (part_009 line 125). -/
def displayedAllocationPercents (p : Portfolio) : List ℚ :=
  p.holdings.map (holdingAllocationPercent p) ++
    (if 0 < p.cash_balance then [cashAllocationPercent p] else [])

lemma sum_map_value_div (T : ℚ) (l : List Holding) :
    (l.map (fun h => h.value / T * 100)).sum =
      (l.map Holding.value).sum / T * 100 := by
  induction l with
  | nil => simp
  | cons h t ih =>
      simp only [List.map_cons, List.sum_cons, ih]
      ring

/-- C2: for every portfolio satisfying the spec's invariant (total value =
cash + holdings valued at current price) with positive total value and
non-negative cash, the allocation percentages rendered by
`PortfolioOverview` sum to exactly 100. -/
theorem c2_allocation_percents_sum_to_100 (p : Portfolio)
    (hw : p.wellFormed) (hpos : 0 < p.total_value)
    (hcash : 0 ≤ p.cash_balance) :
    (displayedAllocationPercents p).sum = 100 := by
  obtain ⟨hval, htot⟩ := hw
  have hT : p.total_value ≠ 0 := ne_of_gt hpos
  unfold displayedAllocationPercents holdingAllocationPercent
    cashAllocationPercent
  rw [List.sum_append, sum_map_value_div]
  by_cases hc : 0 < p.cash_balance
  · simp only [hc, if_true, List.sum_cons, List.sum_nil, add_zero]
    field_simp
    linarith
  · have hc0 : p.cash_balance = 0 := le_antisymm (not_lt.mp hc) hcash
    simp only [hc, if_false, List.sum_nil, add_zero]
    have hS : (p.holdings.map Holding.value).sum = p.total_value := by
      rw [htot, hc0, zero_add]
    rw [hS]
    field_simp

/-- Witness for C2 at a concrete portfolio (cash 700, one holding worth
300, total 1000): its rendered allocation percentages sum to 100. -/
theorem c2_witness :
    (displayedAllocationPercents samplePortfolio).sum = 100 :=
  c2_allocation_percents_sum_to_100 samplePortfolio
    ⟨by intro h hh
        simp only [samplePortfolio, List.mem_singleton] at hh
        subst hh
        norm_num [sampleHolding],
      by norm_num [samplePortfolio, sampleHolding]⟩
    (by norm_num [samplePortfolio]) (by norm_num [samplePortfolio])

/-! ### Service-layer endpoints (api.ts, part_003 lines 95-578) -/

/-- `API_BASE_URL` of api.ts (part_003 line 95). -/
def API_BASE_URL : String := "http://localhost:8000/api"

/-- Paths requested by `tradingApi` (getStock, getMultipleStocks,
analyzeStock, validateTrade, executeTrade). -/
def tradingApiPaths (symbol : String) (symbols : List String) : List String :=
  ["/trading/stocks/" ++ symbol,
   "/trading/stocks?symbols=" ++ String.intercalate "," symbols,
   "/trading/analyze/" ++ symbol,
   "/trading/validate",
   "/trading/execute"]

/-- Paths requested by `analyticsApi`; `params` is the serialized
`URLSearchParams`. -/
def analyticsApiPaths (params : String) (decisionId : Nat) : List String :=
  ["/analytics/ai-decisions?" ++ params,
   "/analytics/news-analysis?" ++ params,
   "/analytics/stock-analysis?" ++ params,
   "/analytics/portfolio-performance",
   "/analytics/sentiment-summary?" ++ params,
   "/analytics/trading-insights",
   "/analytics/mark-executed/" ++ toString decisionId]

/-- Paths requested by `newsApi`. -/
def newsApiPaths (symbol query : String) (limit : Nat) : List String :=
  ["/news/?limit=" ++ toString limit,
   "/news/stock/" ++ symbol ++ "?limit=" ++ toString limit,
   "/news/search?query=" ++ query ++ "&limit=" ++ toString limit]

/-- Paths requested by `portfolioApi`. -/
def portfolioApiPaths : List String :=
  ["/portfolio/", "/portfolio/history", "/portfolio/reset"]

/-- Paths requested by `automatedTradingApi` (including the
`getAIRecommendations` call made through its dedicated axios instance with
the same base URL). -/
def automatedTradingApiPaths (symbol mode : String) (count : Nat) :
    List String :=
  ["/automated-trading/status",
   "/automated-trading/start",
   "/automated-trading/stop",
   "/automated-trading/mode/" ++ mode,
   "/automated-trading/mode",
   "/automated-trading/confidence-threshold",
   "/automated-trading/recent-activity",
   "/automated-trading/execute-manual-analysis?symbol=" ++ symbol,
   "/automated-trading/symbols",
   "/automated-trading/symbols/add",
   "/automated-trading/symbols/" ++ symbol,
   "/automated-trading/ai-recommend-stocks?count=" ++ toString count]

/-- Modelled from the spec: the `onboardingApi` service functions
(`getPreferences`, `chat`, `savePreferences`) are imported by `App` and
`OnboardingPage` but their definition is not under src/; the spec places all
onboarding REST endpoints under `/api/onboarding`. -/
def onboardingApiPaths : List String :=
  ["/onboarding/preferences", "/onboarding/chat"]

/-- Every path the frontend service layer can request (relative to
`API_BASE_URL`). -/
def serviceLayerPaths (symbol query mode params : String)
    (symbols : List String) (limit decisionId count : Nat) : List String :=
  tradingApiPaths symbol symbols ++ analyticsApiPaths params decisionId ++
    newsApiPaths symbol query limit ++ portfolioApiPaths ++
    automatedTradingApiPaths symbol mode count ++ onboardingApiPaths

/-- The six top-level REST roots of the spec, relative to the `/api` base. -/
def apiSectionRoots : List String :=
  ["/trading", "/portfolio", "/news", "/analytics", "/automated-trading",
   "/onboarding"]

/-- A path lies under one of the six REST roots. -/
def underApiSections (path : String) : Prop :=
  ∃ root ∈ apiSectionRoots, ∃ rest, path = root ++ rest

/-- The websocket URL built by `connect` (useWebSocket.ts line 117). -/
def wsUrl (clientId : String) : String :=
  "ws://localhost:8001/ws/" ++ clientId

lemma under_trading (rest : String) : underApiSections ("/trading" ++ rest) :=
  ⟨"/trading", by simp [apiSectionRoots], rest, rfl⟩

lemma under_portfolio (rest : String) :
    underApiSections ("/portfolio" ++ rest) :=
  ⟨"/portfolio", by simp [apiSectionRoots], rest, rfl⟩

lemma under_news (rest : String) : underApiSections ("/news" ++ rest) :=
  ⟨"/news", by simp [apiSectionRoots], rest, rfl⟩

lemma under_analytics (rest : String) :
    underApiSections ("/analytics" ++ rest) :=
  ⟨"/analytics", by simp [apiSectionRoots], rest, rfl⟩

lemma under_automated (rest : String) :
    underApiSections ("/automated-trading" ++ rest) :=
  ⟨"/automated-trading", by simp [apiSectionRoots], rest, rfl⟩

lemma under_onboarding (rest : String) :
    underApiSections ("/onboarding" ++ rest) :=
  ⟨"/onboarding", by simp [apiSectionRoots], rest, rfl⟩

lemma tradingApiPaths_under (symbol : String) (symbols : List String) :
    ∀ p ∈ tradingApiPaths symbol symbols, underApiSections p := by
  intro p hp
  simp only [tradingApiPaths, List.mem_cons, List.not_mem_nil,
    or_false] at hp
  rcases hp with h | h | h | h | h <;> subst h
  · exact under_trading ("/stocks/" ++ symbol)
  · exact under_trading ("/stocks?symbols=" ++
      String.intercalate "," symbols)
  · exact under_trading ("/analyze/" ++ symbol)
  · exact under_trading "/validate"
  · exact under_trading "/execute"

lemma analyticsApiPaths_under (params : String) (decisionId : Nat) :
    ∀ p ∈ analyticsApiPaths params decisionId, underApiSections p := by
  intro p hp
  simp only [analyticsApiPaths, List.mem_cons, List.not_mem_nil,
    or_false] at hp
  rcases hp with h | h | h | h | h | h | h <;> subst h
  · exact under_analytics ("/ai-decisions?" ++ params)
  · exact under_analytics ("/news-analysis?" ++ params)
  · exact under_analytics ("/stock-analysis?" ++ params)
  · exact under_analytics "/portfolio-performance"
  · exact under_analytics ("/sentiment-summary?" ++ params)
  · exact under_analytics "/trading-insights"
  · exact under_analytics ("/mark-executed/" ++ toString decisionId)

lemma newsApiPaths_under (symbol query : String) (limit : Nat) :
    ∀ p ∈ newsApiPaths symbol query limit, underApiSections p := by
  intro p hp
  simp only [newsApiPaths, List.mem_cons, List.not_mem_nil, or_false] at hp
  rcases hp with h | h | h <;> subst h
  · exact under_news ("/?limit=" ++ toString limit)
  · exact under_news ("/stock/" ++ symbol ++ "?limit=" ++ toString limit)
  · exact under_news ("/search?query=" ++ query ++ "&limit=" ++
      toString limit)

lemma portfolioApiPaths_under :
    ∀ p ∈ portfolioApiPaths, underApiSections p := by
  intro p hp
  simp only [portfolioApiPaths, List.mem_cons, List.not_mem_nil,
    or_false] at hp
  rcases hp with h | h | h <;> subst h
  · exact under_portfolio "/"
  · exact under_portfolio "/history"
  · exact under_portfolio "/reset"

lemma automatedTradingApiPaths_under (symbol mode : String) (count : Nat) :
    ∀ p ∈ automatedTradingApiPaths symbol mode count, underApiSections p := by
  intro p hp
  simp only [automatedTradingApiPaths, List.mem_cons, List.not_mem_nil,
    or_false] at hp
  rcases hp with h | h | h | h | h | h | h | h | h | h | h | h <;> subst h
  · exact under_automated "/status"
  · exact under_automated "/start"
  · exact under_automated "/stop"
  · exact under_automated ("/mode/" ++ mode)
  · exact under_automated "/mode"
  · exact under_automated "/confidence-threshold"
  · exact under_automated "/recent-activity"
  · exact under_automated ("/execute-manual-analysis?symbol=" ++ symbol)
  · exact under_automated "/symbols"
  · exact under_automated "/symbols/add"
  · exact under_automated ("/symbols/" ++ symbol)
  · exact under_automated ("/ai-recommend-stocks?count=" ++ toString count)

lemma onboardingApiPaths_under :
    ∀ p ∈ onboardingApiPaths, underApiSections p := by
  intro p hp
  simp only [onboardingApiPaths, List.mem_cons, List.not_mem_nil,
    or_false] at hp
  rcases hp with h | h <;> subst h
  · exact under_onboarding "/preferences"
  · exact under_onboarding "/chat"

/-- C6: every path the frontend service layer requests lies under one of the
six REST roots `/trading`, `/portfolio`, `/news`, `/analytics`,
`/automated-trading`, `/onboarding` relative to the base URL
`http://localhost:8000/api`, and the only push channel is the websocket URL
`ws://localhost:8001/ws/{clientId}`. -/
theorem c6_endpoints_under_six_roots (symbol query mode params : String)
    (symbols : List String) (limit decisionId count : Nat)
    (clientId : String) :
    (∀ p ∈ serviceLayerPaths symbol query mode params symbols limit
        decisionId count, underApiSections p) ∧
    (∃ rest, wsUrl clientId = "ws://localhost:8001/ws/" ++ rest) ∧
    API_BASE_URL = "http://localhost:8000/api" := by
  refine ⟨?_, ⟨clientId, rfl⟩, rfl⟩
  intro p hp
  simp only [serviceLayerPaths, List.mem_append] at hp
  rcases hp with ((((h | h) | h) | h) | h) | h
  · exact tradingApiPaths_under symbol symbols p h
  · exact analyticsApiPaths_under params decisionId p h
  · exact newsApiPaths_under symbol query limit p h
  · exact portfolioApiPaths_under p h
  · exact automatedTradingApiPaths_under symbol mode count p h
  · exact onboardingApiPaths_under p h

/-- Witness for C6: the concrete portfolio path is among the service-layer
paths and lies under a REST root. -/
theorem c6_witness : underApiSections "/portfolio/" :=
  (c6_endpoints_under_six_roots "AAPL" "ai" "full_control" "limit=50" []
      10 1 8 "client_1").1 "/portfolio/"
    (by simp [serviceLayerPaths, tradingApiPaths, analyticsApiPaths,
      newsApiPaths, portfolioApiPaths, automatedTradingApiPaths,
      onboardingApiPaths])

/-! ### Fixed-interval timers (`EnhancedTradingControl.tsx` lines 233-242,
`useWebSocket.ts` lines 218-226) -/

/-- The polling period of the `EnhancedTradingControl` data-refresh
`setInterval` (line 239): 30000 ms. -/
def dataRefreshIntervalMs : Nat := 30000

/-- The period of the keep-alive ping `setInterval` of `useWebSocket`
(line 223): 30000 ms. -/
def pingIntervalMs : Nat := 30000

/-- A JS `setInterval` handle: its fixed period and whether it is still
scheduled. -/
structure IntervalTimer where
  periodMs : Nat
  active : Bool
deriving DecidableEq, Repr

/-- `setInterval` with period `periodMs`: an active timer. -/
def setIntervalTimer (periodMs : Nat) : IntervalTimer :=
  { periodMs := periodMs, active := true }

/-- `clearInterval`: the timer stops firing. -/
def clearIntervalTimer (t : IntervalTimer) : IntervalTimer :=
  { t with active := false }

/-- The time (ms after setup) of the n-th firing of an interval timer. -/
def IntervalTimer.tickTime (t : IntervalTimer) (n : Nat) : Nat :=
  (n + 1) * t.periodMs

/-- The timer started by the polling `useEffect` of
`EnhancedTradingControl` on mount: `setInterval(loadAllData, 30000)`. -/
def pollingEffectTimer : IntervalTimer := setIntervalTimer dataRefreshIntervalMs

/-- The effect cleanup run on unmount: `clearInterval(interval)`. -/
def pollingEffectCleanup : IntervalTimer := clearIntervalTimer pollingEffectTimer

/-- The requests issued by each polling tick, i.e. by `loadAllData`
(lines 181-231): engine status, mode info, recent activity, portfolio. -/
def loadAllDataRequests : List Request :=
  [{ method := "GET", path := "/automated-trading/status" },
   { method := "GET", path := "/automated-trading/mode" },
   { method := "GET", path := "/automated-trading/recent-activity" },
   { method := "GET", path := "/portfolio/" }]

/-- The timer started by the ping `useEffect` of `useWebSocket`: nothing
when disconnected (`if (!isConnected) return`), otherwise
`setInterval(ping, 30000)`; its cleanup clears the interval. -/
def pingEffectTimer (isConnected : Bool) : Option IntervalTimer :=
  if isConnected then some (setIntervalTimer pingIntervalMs) else none

/-- C7: the dashboard polling and the websocket ping both run on constant
30000 ms periods: while mounted, consecutive polling ticks (each refetching
engine status, mode info, recent activity and portfolio) are exactly
30000 ms apart for every tick index, the ping timer exists only while
connected and also fires every 30000 ms, and both cleanups deactivate their
timer. -/
theorem c7_fixed_interval_polling (n : Nat) (t : IntervalTimer) :
    pollingEffectTimer.periodMs = 30000 ∧
    pollingEffectTimer.active = true ∧
    pollingEffectTimer.tickTime (n + 1) - pollingEffectTimer.tickTime n =
      30000 ∧
    loadAllDataRequests =
      [{ method := "GET", path := "/automated-trading/status" },
       { method := "GET", path := "/automated-trading/mode" },
       { method := "GET", path := "/automated-trading/recent-activity" },
       { method := "GET", path := "/portfolio/" }] ∧
    pollingEffectCleanup.active = false ∧
    pingEffectTimer true = some (setIntervalTimer 30000) ∧
    (pingEffectTimer true).map IntervalTimer.periodMs = some 30000 ∧
    pingEffectTimer false = none ∧
    (clearIntervalTimer t).active = false := by
  refine ⟨rfl, rfl, ?_, rfl, rfl, rfl, rfl, rfl, rfl⟩
  simp only [IntervalTimer.tickTime, pollingEffectTimer, setIntervalTimer,
    dataRefreshIntervalMs]
  omega
